import Mathlib

/-!
Shallow embedding of the Fastapi-SIFT-Logo-Stream repository
(`src/main.py`, `src/SIFT.py`) for checking its specification.

The feature-extraction and matching primitives of OpenCV (SIFT, BFMatcher)
are black boxes to the repository; they are embedded as parameters
(a distance function, an extraction function, a decode function, ...),
while every piece of logic written in the repository itself
(the ratio-test list comprehension, the processing loop's control flow,
the MJPEG generator, the hot-reload handler) is translated directly.
-/

namespace SiftStream

/-! ## Feature matching (`main.py` lines 135-139, `SIFT.py` lines 52-57)

OpenCV's `matcher.knnMatch(desc1, desc_frame, k=2)` returns, for each query
(reference) descriptor, the list of its `k` nearest frame descriptors in
ascending order of distance (fewer when the frame has fewer than `k`
descriptors).  We embed it over an arbitrary descriptor type with an
arbitrary distance function.  A `DMatch` records the index of the matched
frame (train) descriptor and the distance, as in OpenCV. -/

structure DMatch where
  trainIdx : Nat
  distance : ℚ
deriving DecidableEq, Repr, Inhabited

/-- RATIO_THRESH from `main.py` line 56 (value 0.67). -/
def RATIO_THRESH : ℚ := 67 / 100

/-- Insert a match into a list kept in ascending distance order. -/
def insertByDist (x : DMatch) : List DMatch → List DMatch
  | [] => [x]
  | y :: ys => if x.distance ≤ y.distance then x :: y :: ys else y :: insertByDist x ys

/-- Sort matches by ascending distance (insertion sort). -/
def sortByDist : List DMatch → List DMatch
  | [] => []
  | x :: xs => insertByDist x (sortByDist xs)

/-- Candidate matches of a query descriptor against the train descriptors
starting at index `i`: one `DMatch` per train descriptor, carrying its index
and its distance to the query. -/
def candidates {α : Type} (dist : α → α → ℚ) (q : α) : Nat → List α → List DMatch
  | _, [] => []
  | i, t :: ts => ⟨i, dist q t⟩ :: candidates dist q (i + 1) ts

/-- The k-nearest-neighbor result set of one query descriptor `q` against the
train (frame) descriptors: all candidates sorted by ascending distance, first
`k` kept. -/
def knnFor {α : Type} (dist : α → α → ℚ) (q : α) (train : List α) (k : Nat) :
    List DMatch :=
  (sortByDist (candidates dist q 0 train)).take k

/-- Embedding of `matcher.knnMatch(query, train, k)`: one k-NN result set per
query descriptor, in query order. -/
def knnMatch {α : Type} (dist : α → α → ℚ) (query train : List α) (k : Nat) :
    List (List DMatch) :=
  query.map (fun q => knnFor dist q train k)

/-- The ratio-test filter of `main.py` lines 136 and 139: a result set `m`
passes iff `len(m) == 2 and m[0].distance < RATIO_THRESH * m[1].distance`. -/
def isGoodPair : List DMatch → Bool
  | [m0, m1] => decide (m0.distance < RATIO_THRESH * m1.distance)
  | _ => false

/-- The list comprehension `[m[0] for m in matches if ...]` of `main.py`
lines 136 and 139: keep the best entry of every result set passing the
ratio-test filter. -/
def goodOf (ms : List (List DMatch)) : List DMatch :=
  (ms.filter isGoodPair).map List.headI

/-- Good matches of a reference descriptor set against a frame descriptor
set, exactly as computed in `processing_loop` (`main.py` lines 135-139). -/
def goodMatches {α : Type} (dist : α → α → ℚ) (ref frame : List α) :
    List DMatch :=
  goodOf (knnMatch dist ref frame 2)

theorem length_insertByDist (x : DMatch) (l : List DMatch) :
    (insertByDist x l).length = l.length + 1 := by
  induction l with
  | nil => rfl
  | cons y ys ih =>
    simp only [insertByDist]
    split <;> simp [ih]

theorem length_sortByDist (l : List DMatch) :
    (sortByDist l).length = l.length := by
  induction l with
  | nil => rfl
  | cons x xs ih => simp [sortByDist, length_insertByDist, ih]

theorem length_candidates {α : Type} (dist : α → α → ℚ) (q : α) (i : Nat)
    (train : List α) : (candidates dist q i train).length = train.length := by
  induction train generalizing i with
  | nil => rfl
  | cons t ts ih => simp [candidates, ih]

theorem length_knnFor {α : Type} (dist : α → α → ℚ) (q : α) (train : List α)
    (k : Nat) : (knnFor dist q train k).length = min k train.length := by
  simp [knnFor, length_sortByDist, length_candidates]

/-- A distance function used for concrete evaluations: the distance to a
train descriptor is the descriptor itself (the query is ignored). -/
def distSelf : ℚ → ℚ → ℚ := fun _ b => b

theorem mem_knnMatch_length_le {α : Type} (dist : α → α → ℚ)
    (ref frame : List α) (m : List DMatch) (hm : m ∈ knnMatch dist ref frame 2) :
    m.length ≤ 2 := by
  obtain ⟨q, -, rfl⟩ := List.mem_map.1 hm
  rw [length_knnFor]
  exact Nat.min_le_left _ _

/-- C1: for every reference descriptor set and every non-empty frame
descriptor set, a k-nearest-neighbor result set produced by `knnMatch` with
k = 2 is accepted by the ratio-test filter of `processing_loop` if and only
if it has at least 2 entries and its best (first) distance is strictly less
than RATIO_THRESH (= 0.67) times its second-best distance. -/
theorem ratio_test_accepts_iff {α : Type} (dist : α → α → ℚ)
    (ref frame : List α) (hne : frame ≠ []) (m : List DMatch)
    (hm : m ∈ knnMatch dist ref frame 2) :
    isGoodPair m = true ↔
      2 ≤ m.length ∧
        m.headI.distance < RATIO_THRESH * (m.getD 1 default).distance := by
  have hlen : m.length ≤ 2 := mem_knnMatch_length_le dist ref frame m hm
  rcases m with - | ⟨a, - | ⟨b, - | ⟨c, rest⟩⟩⟩
  · simp [isGoodPair]
  · simp [isGoodPair]
  · simp [isGoodPair, List.getD]
  · simp only [List.length_cons] at hlen
    omega

/-- Witness for C1: the theorem applied to one reference descriptor and the
two-element frame descriptor set `[1, 10]` under `distSelf`. -/
theorem ratio_test_accepts_iff_witness :
    isGoodPair [⟨0, 1⟩, ⟨1, 10⟩] = true ↔
      2 ≤ ([⟨0, 1⟩, ⟨1, 10⟩] : List DMatch).length ∧
        (([⟨0, 1⟩, ⟨1, 10⟩] : List DMatch).headI).distance <
          RATIO_THRESH * (([⟨0, 1⟩, ⟨1, 10⟩] : List DMatch).getD 1 default).distance :=
  ratio_test_accepts_iff distSelf [0] [1, 10] (by simp) [⟨0, 1⟩, ⟨1, 10⟩]
    (by norm_num [knnMatch, knnFor, candidates, sortByDist, insertByDist, distSelf])

/-- C2 counterexample: three reference descriptors against two frame
descriptors yield three good matches, exceeding min(m, n) = 2 — `knnMatch`
does not enforce injectivity into the frame descriptors, so the good-match
count is not bounded by the frame set's size. -/
theorem good_count_min_counterexample :
    ¬ (goodMatches distSelf [0, 0, 0] [1, 10]).length ≤
        min ([(0 : ℚ), 0, 0].length) ([(1 : ℚ), 10].length) := by
  norm_num [goodMatches, goodOf, knnMatch, knnFor, candidates, sortByDist,
    insertByDist, isGoodPair, RATIO_THRESH, distSelf]

/-- C2 amended: for all descriptor sets A of size m and B of size n, the
good-match output size is between 0 and m (the size of the reference set A);
it is not in general bounded by n. -/
theorem good_count_le_ref {α : Type} (dist : α → α → ℚ) (ref frame : List α) :
    (goodMatches dist ref frame).length ≤ ref.length := by
  calc (goodMatches dist ref frame).length
      = ((knnMatch dist ref frame 2).filter isGoodPair).length := by
        simp [goodMatches, goodOf]
    _ ≤ (knnMatch dist ref frame 2).length := List.length_filter_le _ _
    _ = ref.length := by simp [knnMatch]

/-! ## Shared state and the processing loop (`main.py` lines 62-92, 114-180)

The shared statistics dictionary, the shared last-frame cell and the loop's
local FPS accounting are embedded as a record `LoopState`.  The OpenCV
primitives used by one cycle (resize, SIFT extraction, the drawing and
tiling that build the output view, JPEG decoding for hot-reload) are opaque
to the repository and enter as an environment of functions. -/

structure Stats where
  fps : ℚ
  logo1_matches : Nat
  logo2_matches : Nat
  last_update : ℚ
  mem_mb : ℚ
deriving DecidableEq, Repr

/-- Initial value of `shared_stats` (`main.py` lines 80-86). -/
def initStats : Stats := ⟨0, 0, 0, 0, 0⟩

/-- The state touched by one `processing_loop` cycle: the shared stats, the
shared `last_frame` cell, and the loop-local FPS counter and window start. -/
structure LoopState (ι : Type) where
  stats : Stats
  lastFrame : Option ι
  fpsCounter : Nat
  lastFpsTime : ℚ
deriving DecidableEq

/-- State at loop start: `shared_stats` as initialized, `last_frame = None`
(line 90), `fps_counter = 0` and `last_fps_time = t0` (lines 116-117). -/
def initLoopState (ι : Type) (t0 : ℚ) : LoopState ι :=
  ⟨initStats, none, 0, t0⟩

/-- The module-level reference entries: `logo1_img, kp1, desc1` and
`logo2_img, kp2, desc2` (`main.py` lines 73-76). -/
structure Registry (ι κ δ : Type) where
  logo1_img : ι
  kp1 : κ
  desc1 : List δ
  logo2_img : ι
  kp2 : κ
  desc2 : List δ
deriving DecidableEq

/-- The OpenCV primitives the repository calls, as opaque parameters:
`dist` is the descriptor metric behind `BFMatcher`; `resize` is
`cv2.resize(·, FRAME_SIZE)`; `extract` is `sift.detectAndCompute` on the
live frame, returning `none` when it produces no descriptors; `composite`
is the drawMatches/resize/hstack/putText block (lines 142-158) building the
output view from the frame and the two good-match lists; `detect` is
`sift.detectAndCompute` on a logo; `imdecode` and `imread` are
`cv2.imdecode` / `cv2.imread`, returning `none` on undecodable input. -/
structure Env (ι κ δ β : Type) where
  dist : δ → δ → ℚ
  resize : ι → ι
  extract : ι → Option (List δ)
  composite : ι → List DMatch → List DMatch → ι
  detect : ι → κ × List δ
  imdecode : β → Option ι
  imread : String → Option ι

/-- The FPS block at the end of every cycle (`main.py` lines 171-177):
increment `fps_counter`; if at least one second elapsed since
`last_fps_time`, commit `fps_counter / elapsed` as the fps statistic and
reset the window. -/
def fpsTick {ι : Type} (t : ℚ) (s : LoopState ι) : LoopState ι :=
  let c := s.fpsCounter + 1
  if 1 ≤ t - s.lastFpsTime then
    { s with stats := { s.stats with fps := (c : ℚ) / (t - s.lastFpsTime) },
             fpsCounter := 0, lastFpsTime := t }
  else
    { s with fpsCounter := c }

/-- One pass of the `while` body of `processing_loop` (`main.py` lines
119-177).  `read = none` covers both skip branches (capture not open, or
`cap.read()` failing): they only sleep and `continue`.  On a frame, the
frame is resized, features are extracted, and if descriptors exist the two
good-match lists are computed, the output view composed, and stats and
`last_frame` published; with no descriptors nothing is overwritten (comment
on line 168).  The FPS block runs whenever a frame was read.  `tPub` is
`time.time()` at the publish (line 163), `tFps` at the FPS check (line
172), `mem` the value of `update_mem_stat()`. -/
def loopIter {ι κ δ β : Type} (env : Env ι κ δ β) (reg : Registry ι κ δ)
    (read : Option ι) (tPub tFps mem : ℚ) (s : LoopState ι) : LoopState ι :=
  match read with
  | none => s
  | some frame0 =>
    let frame := env.resize frame0
    match env.extract frame with
    | none => fpsTick tFps s
    | some descFrame =>
      let good1 := goodMatches env.dist reg.desc1 descFrame
      let good2 := goodMatches env.dist reg.desc2 descFrame
      let out := env.composite frame good1 good2
      fpsTick tFps
        { s with
          stats := { s.stats with
            logo1_matches := good1.length
            logo2_matches := good2.length
            last_update := tPub
            mem_mb := mem }
          lastFrame := some out }

/-- Output of one iteration of the `while` body of `mjpeg_generator`:
either a 0.02 s sleep (no frame yet), a skipped iteration (encode failed),
or one multipart chunk carrying the encoded bytes. -/
inductive GenOut (β : Type) where
  | pause (secs : ℚ)
  | skipEncode
  | chunk (b : β)
deriving DecidableEq, Repr

/-- One iteration of `mjpeg_generator` (`main.py` lines 186-197): copy
`last_frame` under the lock; if it is `None`, sleep 0.02 s and continue;
otherwise JPEG-encode the copy now (`enc` is `cv2.imencode` at
JPEG_QUALITY) and, when encoding succeeds, yield the bytes as a chunk. -/
def genStep {ι γ : Type} (enc : ι → Option γ) (lf : Option ι) : GenOut γ :=
  match lf with
  | none => .pause (2 / 100)
  | some f =>
    match enc f with
    | none => .skipEncode
    | some b => .chunk b

theorem fpsTick_logo1 {ι : Type} (t : ℚ) (s : LoopState ι) :
    (fpsTick t s).stats.logo1_matches = s.stats.logo1_matches := by
  unfold fpsTick; split <;> rfl

theorem fpsTick_logo2 {ι : Type} (t : ℚ) (s : LoopState ι) :
    (fpsTick t s).stats.logo2_matches = s.stats.logo2_matches := by
  unfold fpsTick; split <;> rfl

theorem fpsTick_last_update {ι : Type} (t : ℚ) (s : LoopState ι) :
    (fpsTick t s).stats.last_update = s.stats.last_update := by
  unfold fpsTick; split <;> rfl

theorem fpsTick_mem_mb {ι : Type} (t : ℚ) (s : LoopState ι) :
    (fpsTick t s).stats.mem_mb = s.stats.mem_mb := by
  unfold fpsTick; split <;> rfl

theorem fpsTick_lastFrame {ι : Type} (t : ℚ) (s : LoopState ι) :
    (fpsTick t s).lastFrame = s.lastFrame := by
  unfold fpsTick; split <;> rfl

theorem fpsTick_counter_of_lt {ι : Type} (t : ℚ) (s : LoopState ι)
    (h : t - s.lastFpsTime < 1) :
    (fpsTick t s).fpsCounter = s.fpsCounter + 1 := by
  unfold fpsTick
  rw [if_neg (not_le.2 h)]

theorem fpsTick_counter_of_ge {ι : Type} (t : ℚ) (s : LoopState ι)
    (h : 1 ≤ t - s.lastFpsTime) :
    (fpsTick t s).fpsCounter = 0 ∧
      (fpsTick t s).stats.fps
        = ((s.fpsCounter : ℚ) + 1) / (t - s.lastFpsTime) := by
  unfold fpsTick
  rw [if_pos h]
  exact ⟨rfl, by push_cast; ring_nf⟩

/-- C3: a cycle that reads a frame but extracts no descriptors leaves the
shared frame, the match counts, `last_update` and `mem_mb` unchanged, while
the FPS cycle counter still advances: mid-window the counter increments,
and at a window boundary the committed fps counts this cycle before the
counter resets. -/
theorem empty_descriptor_cycle {ι κ δ β : Type} (env : Env ι κ δ β)
    (reg : Registry ι κ δ) (f : ι) (tPub tFps mem : ℚ) (s : LoopState ι)
    (hext : env.extract (env.resize f) = none) :
    ((loopIter env reg (some f) tPub tFps mem s).stats.logo1_matches
        = s.stats.logo1_matches) ∧
    ((loopIter env reg (some f) tPub tFps mem s).stats.logo2_matches
        = s.stats.logo2_matches) ∧
    ((loopIter env reg (some f) tPub tFps mem s).stats.last_update
        = s.stats.last_update) ∧
    ((loopIter env reg (some f) tPub tFps mem s).stats.mem_mb
        = s.stats.mem_mb) ∧
    ((loopIter env reg (some f) tPub tFps mem s).lastFrame = s.lastFrame) ∧
    (tFps - s.lastFpsTime < 1 →
      (loopIter env reg (some f) tPub tFps mem s).fpsCounter
        = s.fpsCounter + 1) ∧
    (1 ≤ tFps - s.lastFpsTime →
      (loopIter env reg (some f) tPub tFps mem s).fpsCounter = 0 ∧
      (loopIter env reg (some f) tPub tFps mem s).stats.fps
        = ((s.fpsCounter : ℚ) + 1) / (tFps - s.lastFpsTime)) := by
  have hiter : loopIter env reg (some f) tPub tFps mem s = fpsTick tFps s := by
    simp [loopIter, hext]
  rw [hiter]
  exact ⟨fpsTick_logo1 tFps s, fpsTick_logo2 tFps s, fpsTick_last_update tFps s,
    fpsTick_mem_mb tFps s, fpsTick_lastFrame tFps s,
    fun hlt => fpsTick_counter_of_lt tFps s hlt,
    fun hge => fpsTick_counter_of_ge tFps s hge⟩

/-- An environment over `Nat` images/keypoints/descriptors/bytes used for
concrete evaluations; its extraction finds no descriptors in any frame. -/
def envEx : Env Nat Nat Nat Nat :=
  ⟨fun _ b => (b : ℚ), id, fun _ => none, fun fr _ _ => fr,
   fun i => (i, [i]), fun _ => none, fun _ => none⟩

/-- A concrete registry used for evaluations. -/
def regEx : Registry Nat Nat Nat := ⟨1, 1, [1], 2, 2, [2]⟩

/-- Witness for C3: a cycle on frame 5 under `envEx` (which extracts no
descriptors) from the initial state leaves the frame cell empty and
advances the FPS counter from 0 to 1. -/
theorem empty_descriptor_cycle_witness :
    (loopIter envEx regEx (some 5) 0 0 0 (initLoopState Nat 0)).lastFrame
        = none ∧
    (loopIter envEx regEx (some 5) 0 0 0 (initLoopState Nat 0)).fpsCounter
        = 0 + 1 := by
  have h := empty_descriptor_cycle envEx regEx 5 0 0 0 (initLoopState Nat 0) rfl
  refine ⟨h.2.2.2.2.1.trans rfl, ?_⟩
  exact (h.2.2.2.2.2.1 (by norm_num [initLoopState])).trans rfl

/-- Repeated loop passes in which the frame source always returns absence
(`cap` closed, or every `cap.read()` failing); each element of `ts` gives
the times/memory the cycle would have used. -/
def runAbsent {ι κ δ β : Type} (env : Env ι κ δ β) (reg : Registry ι κ δ)
    (ts : List (ℚ × ℚ × ℚ)) (s : LoopState ι) : LoopState ι :=
  ts.foldl (fun st t => loopIter env reg none t.1 t.2.1 t.2.2 st) s

theorem runAbsent_eq {ι κ δ β : Type} (env : Env ι κ δ β)
    (reg : Registry ι κ δ) (ts : List (ℚ × ℚ × ℚ)) (s : LoopState ι) :
    runAbsent env reg ts s = s := by
  induction ts generalizing s with
  | nil => rfl
  | cons t ts ih => exact ih s

/-- C7: if the frame source returns absence on every read, then after any
number of loop passes the fps statistic is still 0 and `last_update` is
still its initial value 0.0, and an iteration of the stream generator
pauses (emits no chunk) because `last_frame` is still `None`. -/
theorem absent_source_stats {ι κ δ β γ : Type} (env : Env ι κ δ β)
    (reg : Registry ι κ δ) (enc : ι → Option γ) (ts : List (ℚ × ℚ × ℚ))
    (t0 : ℚ) :
    (runAbsent env reg ts (initLoopState ι t0)).stats.fps = 0 ∧
    (runAbsent env reg ts (initLoopState ι t0)).stats.last_update = 0 ∧
    genStep enc (runAbsent env reg ts (initLoopState ι t0)).lastFrame
      = GenOut.pause (2 / 100) := by
  rw [runAbsent_eq]
  exact ⟨rfl, rfl, rfl⟩

/-! ## Hot-reload (`main.py` lines 255-292) -/

/-- The form/file inputs of `POST /reload-logos` (`main.py` lines 256-260):
per slot an optional uploaded file (its raw bytes) and an optional
filesystem path. -/
structure ReloadRequest (β : Type) where
  logo1_file : Option β
  logo2_file : Option β
  logo1_path : Option String
  logo2_path : Option String
deriving DecidableEq

/-- Resolution of one slot's new image (`main.py` lines 268-280): when an
upload is present its bytes are decoded and the path branch is never taken
(the `elif`), even if decoding fails; otherwise a truthy — non-`None`,
non-empty — path is read from disk; otherwise the slot gets nothing. -/
def resolveSlot {ι β : Type} (imdecode : β → Option ι)
    (imread : String → Option ι) (file : Option β) (path : Option String) :
    Option ι :=
  match file with
  | some data => imdecode data
  | none =>
    match path with
    | some p => if p = "" then none else imread p
    | none => none

/-- Instrumented slot resolution: the same computation, additionally
reporting whether `cv2.imread` (the filesystem path) was consulted. -/
def resolveSlotTraced {ι β : Type} (imdecode : β → Option ι)
    (imread : String → Option ι) (file : Option β) (path : Option String) :
    Option ι × Bool :=
  match file with
  | some data => (imdecode data, false)
  | none =>
    match path with
    | some p => if p = "" then (none, false) else (imread p, true)
    | none => (none, false)

theorem resolveSlotTraced_fst {ι β : Type} (imdecode : β → Option ι)
    (imread : String → Option ι) (file : Option β) (path : Option String) :
    (resolveSlotTraced imdecode imread file path).1
      = resolveSlot imdecode imread file path := by
  rcases file with - | b
  · rcases path with - | p
    · rfl
    · simp only [resolveSlotTraced, resolveSlot]
      split <;> rfl
  · rfl

/-- The body of `reload_logos` (`main.py` lines 263-292): resolve both
slots; if neither resolved, raise HTTP 400 with the registry untouched
(the handler raises before any assignment); otherwise overwrite exactly
the slots that resolved, recomputing their features, and answer ok. -/
def reload_logos {ι κ δ β : Type} (env : Env ι κ δ β) (req : ReloadRequest β)
    (st : Registry ι κ δ) :
    Except (Nat × String) Unit × Registry ι κ δ :=
  let new1 := resolveSlot env.imdecode env.imread req.logo1_file req.logo1_path
  let new2 := resolveSlot env.imdecode env.imread req.logo2_file req.logo2_path
  match new1, new2 with
  | none, none => (.error (400, "No se envio ningun logo valido"), st)
  | n1, n2 =>
    let st1 :=
      match n1 with
      | some img =>
        { st with logo1_img := img, kp1 := (env.detect img).1,
                  desc1 := (env.detect img).2 }
      | none => st
    let st2 :=
      match n2 with
      | some img =>
        { st1 with logo2_img := img, kp2 := (env.detect img).1,
                   desc2 := (env.detect img).2 }
      | none => st1
    (.ok (), st2)

/-- The error condition as claim C4 words it, read over the four supplied
inputs themselves: some supplied upload decodes, or some supplied path
reads, to a valid image. -/
def anyInputDecodes {ι β : Type} (imdecode : β → Option ι)
    (imread : String → Option ι) (req : ReloadRequest β) : Bool :=
  (match req.logo1_file with
    | some b => (imdecode b).isSome
    | none => false) ||
  (match req.logo2_file with
    | some b => (imdecode b).isSome
    | none => false) ||
  (match req.logo1_path with
    | some p => (imread p).isSome
    | none => false) ||
  (match req.logo2_path with
    | some p => (imread p).isSome
    | none => false)

/-- An environment whose byte decoder rejects all uploads but whose disk
reader always yields a valid image (7). -/
def envDecFail : Env Nat Nat Nat Nat :=
  ⟨fun _ b => (b : ℚ), id, fun _ => none, fun fr _ _ => fr,
   fun i => (i, [i]), fun _ => none, fun _ => some 7⟩

/-- C4 counterexample: a request whose slot-1 upload is undecodable but
whose slot-1 path points to a decodable image is answered with the 400
client error even though a supplied logo input decodes to a valid image —
the failed upload shadows the path (the `elif`), so "client error iff no
supplied logo input decodes to a valid image" is false as stated. -/
theorem reload_error_iff_counterexample :
    ((reload_logos envDecFail ⟨some 0, none, some "p", none⟩ regEx).1
        = Except.error (400, "No se envio ningun logo valido")) ∧
      anyInputDecodes envDecFail.imdecode envDecFail.imread
          ⟨some 0, none, some "p", none⟩ = true :=
  ⟨rfl, rfl⟩

/-- C4 amended: `reload_logos` answers the 400 client error iff neither
slot resolves to a valid image — where a slot resolves through its uploaded
file when one is supplied (the path then being ignored) and otherwise
through its non-empty path; in the error case the whole registry is
unchanged, and otherwise exactly the resolving slots are replaced (image
plus recomputed features) while non-resolving slots keep their entries. -/
theorem reload_spec {ι κ δ β : Type} (env : Env ι κ δ β)
    (req : ReloadRequest β) (st : Registry ι κ δ) :
    ((∃ e, (reload_logos env req st).1 = Except.error e) ↔
      (resolveSlot env.imdecode env.imread req.logo1_file req.logo1_path = none ∧
       resolveSlot env.imdecode env.imread req.logo2_file req.logo2_path = none)) ∧
    ((resolveSlot env.imdecode env.imread req.logo1_file req.logo1_path = none ∧
      resolveSlot env.imdecode env.imread req.logo2_file req.logo2_path = none) →
      (reload_logos env req st).2 = st) ∧
    (∀ img,
      resolveSlot env.imdecode env.imread req.logo1_file req.logo1_path = some img →
      (reload_logos env req st).2.logo1_img = img ∧
      (reload_logos env req st).2.kp1 = (env.detect img).1 ∧
      (reload_logos env req st).2.desc1 = (env.detect img).2) ∧
    (resolveSlot env.imdecode env.imread req.logo1_file req.logo1_path = none →
      (reload_logos env req st).2.logo1_img = st.logo1_img ∧
      (reload_logos env req st).2.kp1 = st.kp1 ∧
      (reload_logos env req st).2.desc1 = st.desc1) ∧
    (∀ img,
      resolveSlot env.imdecode env.imread req.logo2_file req.logo2_path = some img →
      (reload_logos env req st).2.logo2_img = img ∧
      (reload_logos env req st).2.kp2 = (env.detect img).1 ∧
      (reload_logos env req st).2.desc2 = (env.detect img).2) ∧
    (resolveSlot env.imdecode env.imread req.logo2_file req.logo2_path = none →
      (reload_logos env req st).2.logo2_img = st.logo2_img ∧
      (reload_logos env req st).2.kp2 = st.kp2 ∧
      (reload_logos env req st).2.desc2 = st.desc2) := by
  rcases h1 : resolveSlot env.imdecode env.imread req.logo1_file req.logo1_path
    with - | img1 <;>
  rcases h2 : resolveSlot env.imdecode env.imread req.logo2_file req.logo2_path
    with - | img2 <;>
  simp [reload_logos, h1, h2]

/-- An environment whose byte decoder decodes blob 1 to image 10 and
rejects everything else. -/
def envDec1 : Env Nat Nat Nat Nat :=
  ⟨fun _ b => (b : ℚ), id, fun _ => none, fun fr _ _ => fr,
   fun i => (i, [i]), fun b => if b = 1 then some 10 else none, fun _ => none⟩

/-- Witness for C4 amended: slot 1 uploads decodable blob 1 and slot 2
uploads undecodable blob 2; slot 1 is replaced by image 10 and slot 2
keeps its entry. -/
theorem reload_spec_witness :
    (reload_logos envDec1 ⟨some 1, some 2, none, none⟩ regEx).2.logo1_img = 10 ∧
    (reload_logos envDec1 ⟨some 1, some 2, none, none⟩ regEx).2.logo2_img
      = regEx.logo2_img := by
  have h := reload_spec envDec1 ⟨some 1, some 2, none, none⟩ regEx
  exact ⟨(h.2.2.1 10 rfl).1, (h.2.2.2.2.2 rfl).1⟩

/-- C10: during hot-reload slot resolution an uploaded file takes
precedence over a supplied path: with a file present the path is never
read (the instrumentation's imread flag stays false) and the outcome is
exactly the decode of the uploaded bytes — even when that decode fails;
the instrumented resolution agrees with the `resolveSlot` used by
`reload_logos`. -/
theorem upload_shadows_path {ι β : Type} (imdecode : β → Option ι)
    (imread : String → Option ι) (b : β) (path : Option String) :
    (resolveSlotTraced imdecode imread (some b) path).2 = false ∧
    (resolveSlotTraced imdecode imread (some b) path).1 = imdecode b ∧
    (resolveSlotTraced imdecode imread (some b) path).1
      = resolveSlot imdecode imread (some b) path :=
  ⟨rfl, rfl, rfl⟩

/-! ## Streaming publisher (`main.py` lines 183-197) -/

/-- The per-iteration outputs of one `mjpeg_generator` viewer across a
history of values of the shared `last_frame` cell, one read per
iteration. -/
def genRun {ι γ : Type} (enc : ι → Option γ) (history : List (Option ι)) :
    List (GenOut γ) :=
  history.map (genStep enc)

/-- C8 counterexample: a frame published once and never replaced is
re-encoded and re-sent by two consecutive generator iterations with no
pause between the chunks — the 0.02 s pause happens only while no frame
exists at all, not "whenever no new frame exists yet". -/
theorem stale_resend_counterexample :
    genRun (fun n : Nat => some n) [some 7, some 7]
        = [GenOut.chunk 7, GenOut.chunk 7] ∧
      (GenOut.chunk 7 : GenOut Nat) ≠ GenOut.pause (2 / 100) :=
  ⟨rfl, fun h => nomatch h⟩

/-- C8 amended: a generator iteration pauses (0.02 s) iff the shared store
holds no frame at all; whenever it holds a frame — fresh or stale — the
iteration re-encodes that current frame at the moment of this read and, if
encoding succeeds, emits its bytes as the chunk. -/
theorem gen_pause_iff_no_frame {ι γ : Type} (enc : ι → Option γ)
    (lf : Option ι) :
    ((∃ q, genStep enc lf = GenOut.pause q) ↔ lf = none) ∧
    (∀ f b, lf = some f → enc f = some b →
      genStep enc lf = GenOut.chunk b) := by
  constructor
  · constructor
    · rintro ⟨q, hq⟩
      rcases lf with - | f
      · rfl
      · rcases henc : enc f with - | b <;> simp [genStep, henc] at hq
    · rintro rfl
      exact ⟨2 / 100, rfl⟩
  · rintro f b rfl henc
    simp [genStep, henc]

/-- Witness for C8 amended: with the identity encoder and frame 3 in the
store, the iteration emits the chunk 3. -/
theorem gen_pause_iff_no_frame_witness :
    genStep (fun n : Nat => some n) (some 3) = GenOut.chunk 3 :=
  (gen_pause_iff_no_frame (fun n : Nat => some n) (some 3)).2 3 3 rfl rfl

/-! ## Whole-server events and the latest-frame invariant -/

/-- The operations that touch shared state while the server runs: one
processing-loop pass, one hot-reload request, a stats read
(`GET /stats`, `GET /stats_html`), a stream-viewer read.  The reads carry
no data because they mutate nothing. -/
inductive SysEvent (ι β : Type) where
  | cycle (read : Option ι) (tPub tFps mem : ℚ)
  | reload (req : ReloadRequest β)
  | statsRead
  | streamRead

/-- Full mutable server state: the loop/shared state plus the reference
registry globals. -/
structure SysState (ι κ δ : Type) where
  loopSt : LoopState ι
  reg : Registry ι κ δ

def applyEvent {ι κ δ β : Type} (env : Env ι κ δ β) (s : SysState ι κ δ) :
    SysEvent ι β → SysState ι κ δ
  | .cycle read tPub tFps mem =>
    ⟨loopIter env s.reg read tPub tFps mem s.loopSt, s.reg⟩
  | .reload req => ⟨s.loopSt, (reload_logos env req s.reg).2⟩
  | .statsRead => s
  | .streamRead => s

def applyEvents {ι κ δ β : Type} (env : Env ι κ δ β)
    (es : List (SysEvent ι β)) (s : SysState ι κ δ) : SysState ι κ δ :=
  es.foldl (applyEvent env) s

theorem loopIter_lastFrame_isSome {ι κ δ β : Type} (env : Env ι κ δ β)
    (reg : Registry ι κ δ) (read : Option ι) (tPub tFps mem : ℚ)
    (s : LoopState ι) (h : s.lastFrame.isSome = true) :
    (loopIter env reg read tPub tFps mem s).lastFrame.isSome = true := by
  rcases read with - | f
  · exact h
  · rcases hx : env.extract (env.resize f) with - | df
    · simpa [loopIter, hx, fpsTick_lastFrame] using h
    · simp [loopIter, hx, fpsTick_lastFrame]

/-- C9: once the processing loop has published a frame, no later operation
(a further cycle — publishing or skipping —, a hot-reload, a stats read or
a stream read) ever resets the shared `last_frame` cell to `None`; hence
every later stream-viewer read finds a frame and never pauses — the stream
keeps emitting through source outages. -/
theorem lastFrame_never_cleared {ι κ δ β γ : Type} (env : Env ι κ δ β)
    (enc : ι → Option γ) (es : List (SysEvent ι β)) (s : SysState ι κ δ)
    (h : s.loopSt.lastFrame.isSome = true) :
    (applyEvents env es s).loopSt.lastFrame.isSome = true ∧
    genStep enc (applyEvents env es s).loopSt.lastFrame
      ≠ GenOut.pause (2 / 100) := by
  have hmain : ∀ (es : List (SysEvent ι β)) (s : SysState ι κ δ),
      s.loopSt.lastFrame.isSome = true →
      (applyEvents env es s).loopSt.lastFrame.isSome = true := by
    intro es
    induction es with
    | nil => exact fun s h => h
    | cons e es ih =>
      intro s h
      refine ih _ ?_
      rcases e with ⟨read, tp, tf, m⟩ | req | - | -
      · exact loopIter_lastFrame_isSome env s.reg read tp tf m s.loopSt h
      · exact h
      · exact h
      · exact h
  have h1 := hmain es s h
  refine ⟨h1, ?_⟩
  rcases hl : (applyEvents env es s).loopSt.lastFrame with - | f
  · rw [hl] at h1
    cases h1
  · rcases henc : enc f with - | b <;> simp [genStep, henc]

/-- Witness for C9: from a state whose cell holds frame 9, a skipping
cycle, a (rejected) hot-reload and a stream read leave the cell occupied. -/
theorem lastFrame_never_cleared_witness :
    (applyEvents envEx
        [SysEvent.cycle (some 4) 0 0 0, SysEvent.reload ⟨none, none, none, none⟩,
         SysEvent.streamRead]
        ⟨⟨initStats, some 9, 0, 0⟩, regEx⟩).loopSt.lastFrame.isSome = true ∧
    genStep (fun n : Nat => some n)
        (applyEvents envEx
          [SysEvent.cycle (some 4) 0 0 0, SysEvent.reload ⟨none, none, none, none⟩,
           SysEvent.streamRead]
          ⟨⟨initStats, some 9, 0, 0⟩, regEx⟩).loopSt.lastFrame
      ≠ GenOut.pause (2 / 100) :=
  lastFrame_never_cleared envEx (fun n : Nat => some n)
    [SysEvent.cycle (some 4) 0 0 0, SysEvent.reload ⟨none, none, none, none⟩,
     SysEvent.streamRead]
    ⟨⟨initStats, some 9, 0, 0⟩, regEx⟩ rfl

/-! ## Exception behavior of the loop body (`main.py` lines 114-180)

The body of `processing_loop` contains no try/except, so an exception from
`sift.detectAndCompute` or `matcher.knnMatch` propagates out of the pass
and kills the daemon thread.  This variant of the pass lets those two
primitives raise. -/

/-- One pass of the `while` body of `processing_loop` with the OpenCV calls
allowed to raise: `extractE` is `sift.detectAndCompute` on the frame and
`matchE` is `matcher.knnMatch`, each either raising (`Except.error`) or
returning.  The body installs no handler, so any raise propagates out. -/
def loopIterE {ι κ δ : Type} (reg : Registry ι κ δ) (resize : ι → ι)
    (extractE : ι → Except String (Option (List δ)))
    (matchE : List δ → List δ → Except String (List (List DMatch)))
    (composite : ι → List DMatch → List DMatch → ι)
    (read : Option ι) (tPub tFps mem : ℚ) (s : LoopState ι) :
    Except String (LoopState ι) :=
  match read with
  | none => .ok s
  | some frame0 =>
    let frame := resize frame0
    match extractE frame with
    | .error e => .error e
    | .ok none => .ok (fpsTick tFps s)
    | .ok (some descFrame) =>
      match matchE reg.desc1 descFrame with
      | .error e => .error e
      | .ok ms1 =>
        let good1 := goodOf ms1
        match matchE reg.desc2 descFrame with
        | .error e => .error e
        | .ok ms2 =>
          let good2 := goodOf ms2
          let out := composite frame good1 good2
          .ok (fpsTick tFps
            { s with
              stats := { s.stats with
                logo1_matches := good1.length
                logo2_matches := good2.length
                last_update := tPub
                mem_mb := mem }
              lastFrame := some out })

/-- The thread running `processing_loop`: successive passes over the
pending inputs; a raised exception propagates and the thread dies,
executing no further pass. -/
def runLoopE {ι κ δ : Type} (reg : Registry ι κ δ) (resize : ι → ι)
    (extractE : ι → Except String (Option (List δ)))
    (matchE : List δ → List δ → Except String (List (List DMatch)))
    (composite : ι → List DMatch → List DMatch → ι) :
    List (Option ι × ℚ × ℚ × ℚ) → LoopState ι → Except String (LoopState ι)
  | [], s => .ok s
  | c :: cs, s =>
    match loopIterE reg resize extractE matchE composite
        c.1 c.2.1 c.2.2.1 c.2.2.2 s with
    | .error e => .error e
    | .ok s' => runLoopE reg resize extractE matchE composite cs s'

/-- When neither primitive raises, the fallible pass agrees with
`loopIter`: same body, `matchE` instantiated with `knnMatch` at k = 2. -/
theorem loopIterE_agrees {ι κ δ β : Type} (env : Env ι κ δ β)
    (reg : Registry ι κ δ) (read : Option ι) (tPub tFps mem : ℚ)
    (s : LoopState ι) :
    loopIterE reg env.resize (fun i => Except.ok (env.extract i))
        (fun a b => Except.ok (knnMatch env.dist a b 2)) env.composite
        read tPub tFps mem s
      = Except.ok (loopIter env reg read tPub tFps mem s) := by
  rcases read with - | f
  · rfl
  · rcases hx : env.extract (env.resize f) with - | df <;>
      simp [loopIterE, loopIter, hx, goodMatches]

/-- A distance function over `Nat` descriptors for concrete evaluations. -/
def distNat : Nat → Nat → ℚ := fun _ b => (b : ℚ)

/-- C5 (refuting demonstration): with extraction raising on the first
frame, the loop run over two pending cycles terminates with the propagated
exception — the second cycle never executes and no continuing state is
produced, contradicting "skips publishing for that cycle and continues". -/
theorem exception_terminates_loop :
    runLoopE regEx id (fun _ => Except.error "cv2.error")
        (fun a b => Except.ok (knnMatch distNat a b 2)) (fun fr _ _ => fr)
        [(some 1, 0, 0, 0), (some 2, 1, 1, 0)] (initLoopState Nat 0)
      = Except.error "cv2.error" := rfl

/-! ## Interleaving a hot-reload with one loop cycle

`reload_logos` mutates the slot-1 globals with no lock (`stats_lock` and
`frame_lock` guard other data and `reload_logos` takes neither), in
program order `logo1_img = ...` (line 286) then `kp1, desc1 = ...`
(line 287); the loop reads `desc1` for `knnMatch` (line 135) and later
`logo1_img`/`kp1` for `drawMatches` (line 142).  We model the four shared
accesses as atomic actions and execute explicit interleavings. -/

/-- The three slot-1 globals, each tagged by which load wrote it:
`false` = the entry in place before the hot-reload, `true` = the entry the
in-flight hot-reload writes. -/
structure Slot1Cells where
  img : Bool
  kp : Bool
  desc : Bool
deriving DecidableEq, Repr

/-- What the loop's cycle observed: the `desc1` it used for matching and
the `logo1_img`/`kp1` it used for drawing. -/
structure LoopObs where
  obsDesc : Option Bool
  obsImg : Option Bool
  obsKp : Option Bool
deriving DecidableEq, Repr

structure InterleaveState where
  cells : Slot1Cells
  obs : LoopObs
deriving DecidableEq, Repr

/-- The atomic shared accesses of the two threads on slot 1: the reload
handler performs `wrImg` then `wrFeat`; the loop performs `rdMatch` then
`rdDraw`. -/
inductive SlotAction where
  | wrImg
  | wrFeat
  | rdMatch
  | rdDraw
deriving DecidableEq, Repr

def slotStep : InterleaveState → SlotAction → InterleaveState
  | s, .wrImg => { s with cells := { s.cells with img := true } }
  | s, .wrFeat => { s with cells := { s.cells with kp := true, desc := true } }
  | s, .rdMatch => { s with obs := { s.obs with obsDesc := some s.cells.desc } }
  | s, .rdDraw =>
    { s with obs := { s.obs with obsImg := some s.cells.img,
                                 obsKp := some s.cells.kp } }

/-- Execute an interleaving of the four accesses from the all-old,
nothing-observed state. -/
def slotRun (l : List SlotAction) : InterleaveState :=
  l.foldl slotStep ⟨⟨false, false, false⟩, ⟨none, none, none⟩⟩

/-- C6 (refuting demonstration): in the interleaving where the whole
hot-reload write sequence lands between the loop's read of `desc1` for
matching and its read of `logo1_img`/`kp1` for drawing — an interleaving
respecting each thread's program order — the cycle observes the old
descriptors together with the new image and keypoints: a half-updated mix,
possible because no lock guards the registry swap. -/
theorem unguarded_swap_mixed_observation :
    (slotRun [SlotAction.rdMatch, SlotAction.wrImg, SlotAction.wrFeat,
        SlotAction.rdDraw]).obs
      = ⟨some false, some true, some true⟩ := rfl

end SiftStream
